import Mathlib

/-!
Shallow embedding of the fritz-mon repository (a FRITZ!Box Prometheus
exporter written in Go) for checking its natural-language specification.

The embedding follows the Go sources:
  * src/config.go                — configuration validation
  * src/server.go                — polling scheduler (newTicker, metric loops)
  * src/metrics.go               — collectors (device and network metrics)
  * src/fritzbox/client.go       — data-call preparation (prepareCommand)
  * src/fritzbox/session.go      — login handshake and challenge solving
  * src/fritzbox/network.go      — NetworkStats decoding and validation
  * src/unnamed/part_002         — device records, capability bitmask, accessors

Go machine floats are modelled by exact rationals plus signed infinities
(`GoFloat`); all arithmetic the claims touch (division by the constant
scale factors 10 and 1000, multiplication by 8) is exact on the values
involved, so the rational model is faithful for these claims.  Fallible Go
functions returning (value, error) pairs are modelled with explicit
products and `Option`/`Except`.
-/

set_option maxRecDepth 8000

namespace FritzMon

/-! ## Model of Go float64 values and of strconv parsing

A float64 value is modelled as either an exact rational or a signed
infinity.  IEEE rounding of finite values is abstracted away (finite
results are kept as exact rationals); this does not affect any claim,
which only divide or multiply by exact powers of 2 and 10 or compare
against zero.  NaN never arises in the modelled fragment. -/

inductive GoFloat where
  | finite (q : ℚ)
  | infinity (neg : Bool)
  deriving DecidableEq, Repr

/-- Parse errors of the strconv package: `malformed` models
strconv.ErrSyntax, `outOfRange` models strconv.ErrRange. -/
inductive GoNumErr where
  | malformed
  | outOfRange
  deriving DecidableEq, Repr

/-- Division of a Go float by a positive rational constant (the code only
divides by the literals 10 and 1000).  Infinity divided by a finite
positive constant stays infinite, as in IEEE arithmetic. -/
def goDiv (x : GoFloat) (c : ℚ) : GoFloat :=
  match x with
  | .finite q => .finite (q / c)
  | .infinity b => .infinity b

def digitVal (c : Char) : ℕ := c.toNat - '0'.toNat

def natOfDigits (cs : List Char) : ℕ :=
  cs.foldl (fun a c => a * 10 + digitVal c) 0

/-- Split an optional leading sign off a character list, returning whether
the sign was a minus together with the remaining characters. -/
def splitSign : List Char → Bool × List Char
  | '+' :: rest => (false, rest)
  | '-' :: rest => (true, rest)
  | cs => (false, cs)

/-- Overflow boundary of float64: decimal values with magnitude at or
above 2^1024 - 2^970 round to infinity under IEEE round-to-nearest-even,
which is when Go strconv.ParseFloat reports ErrRange with value ±Inf. -/
def float64Overflow : ℚ := mkRat (((2 ^ 1024 - 2 ^ 970 : ℕ) : ℤ)) 1

/-- Decimal scientific value m × 10^e of an unsigned decimal mantissa as
an exact rational, written with mkRat and natural-number powers so that
it evaluates inside the kernel. -/
def decimalValue (m : ℕ) (e : ℤ) : ℚ :=
  if 0 ≤ e then mkRat (((m * 10 ^ e.toNat : ℕ) : ℤ)) 1
  else mkRat ((m : ℤ)) (10 ^ (-e).toNat)

/-- Model of Go strconv.ParseFloat(s, 64) on the decimal number grammar
(optional sign, digits with an optional fraction part, optional decimal
exponent).  Returns the parsed value together with an optional error,
mirroring the (float64, error) pair in Go: a malformed string yields
(0, ErrSyntax) and a syntactically valid but too large value yields
(±Inf, ErrRange).  The special forms Inf/NaN, hexadecimal floats and
digit-group underscores accepted by Go are outside the modelled grammar,
and finite values are kept exact instead of being rounded; the claims
under check never touch those cases. -/
def strconvParseFloat (s : String) : GoFloat × Option GoNumErr :=
  let (neg, cs1) := splitSign s.data
  let intDigits := cs1.takeWhile Char.isDigit
  let rest1 := cs1.dropWhile Char.isDigit
  let (fracDigits, rest2) :=
    match rest1 with
    | '.' :: r => (r.takeWhile Char.isDigit, r.dropWhile Char.isDigit)
    | _ => ([], rest1)
  if intDigits.isEmpty ∧ fracDigits.isEmpty then
    (.finite 0, some .malformed)
  else
    let mantissa : ℕ := natOfDigits (intDigits ++ fracDigits)
    let scale : ℤ := -(fracDigits.length : ℤ)
    let expPart : Option ℤ :=
      match rest2 with
      | [] => some 0
      | 'e' :: r2 =>
          let (eneg, r3) := splitSign r2
          let expDigits := r3.takeWhile Char.isDigit
          if expDigits.isEmpty ∨ ¬(r3.dropWhile Char.isDigit).isEmpty then none
          else some (if eneg then -(natOfDigits expDigits : ℤ) else (natOfDigits expDigits : ℤ))
      | 'E' :: r2 =>
          let (eneg, r3) := splitSign r2
          let expDigits := r3.takeWhile Char.isDigit
          if expDigits.isEmpty ∨ ¬(r3.dropWhile Char.isDigit).isEmpty then none
          else some (if eneg then -(natOfDigits expDigits : ℤ) else (natOfDigits expDigits : ℤ))
      | _ => none
    match expPart with
    | none => (.finite 0, some .malformed)
    | some e =>
        let mag : ℚ := decimalValue mantissa (scale + e)
        if float64Overflow ≤ mag then
          (.infinity neg, some .outOfRange)
        else
          (.finite (if neg then -mag else mag), none)

/-- Model of Go strconv.ParseInt(s, 10, 64): optional sign followed by at
least one decimal digit, with the result required to fit into a signed
64-bit integer.  Any failure (empty input, stray characters, overflow) is
collapsed to `none`, since the only caller in the repository
(bitMasked.hasMask) discards the partially converted value on error. -/
def strconvParseInt64 (s : String) : Option ℤ :=
  let (neg, digits) := splitSign s.data
  if digits.isEmpty ∨ ¬(digits.all Char.isDigit) then none
  else
    let v : ℤ := (natOfDigits digits : ℤ)
    let signed := if neg then -v else v
    if -(2 ^ 63) ≤ signed ∧ signed ≤ 2 ^ 63 - 1 then some signed else none

/-! ## Device records and the capability bitmask (src/unnamed/part_002)

The Go `Capability` constants are iota values with anonymous gaps; each
constructor below carries the same index through `capabilityIndex`. -/

inductive Capability where
  | HANFUNCompatibility
  | AlertTrigger
  | HeatControl
  | PowerSensor
  | TemperatureSensor
  | StateSwitch
  | DECTRepeater
  | Microphone
  | HANFUNUnit
  deriving DecidableEq, Repr

/-- Iota index of each named capability constant in the Go source (the
underscore placeholders occupy indices 1, 2, 3, 5 and 12). -/
def capabilityIndex : Capability → ℕ
  | .HANFUNCompatibility => 0
  | .AlertTrigger => 4
  | .HeatControl => 6
  | .PowerSensor => 7
  | .TemperatureSensor => 8
  | .StateSwitch => 9
  | .DECTRepeater => 10
  | .Microphone => 11
  | .HANFUNUnit => 13

structure SwitchInfo where
  state : String
  mode : String
  lock : String
  deviceLock : String
  deriving DecidableEq, Repr

structure PowerInfo where
  power : String
  energy : String
  voltage : String
  deriving DecidableEq, Repr

structure TemperatureInfo where
  celsius : String
  offset : String
  deriving DecidableEq, Repr

/-- The Device record restricted to the fields that the collectors read;
the remaining string fields of the Go struct (identifier, firmware
version, thermostat block, and so on) never influence any claim. -/
structure Device where
  name : String
  present : ℤ
  capabilitiesBitmap : String
  switch : SwitchInfo
  power : PowerInfo
  temperature : TemperatureInfo
  deriving DecidableEq, Repr

/-- Model of bitMasked.hasMask: parse the bitmask string as a decimal
int64 and test the bit mask against its two's-complement bit pattern
(Go computes bitMask & mask on int64); a parse failure means false. -/
def hasMask (functionbitmask : String) (mask : ℕ) : Bool :=
  match strconvParseInt64 functionbitmask with
  | none => false
  | some v => ((v % ((2 : ℤ) ^ 64)).toNat &&& mask) ≠ 0

/-- Model of Device.Has: true iff the device supports all the listed
capabilities (the Go variadic loop over `cs`). -/
def Device.has (d : Device) (cs : List Capability) : Bool :=
  cs.all fun c => hasMask d.capabilitiesBitmap (1 <<< capabilityIndex c)

def Device.canMeasurePower (d : Device) : Bool := d.has [.PowerSensor]

def Device.canMeasureTemperature (d : Device) : Bool := d.has [.TemperatureSensor]

def Device.isSwitch (d : Device) : Bool := d.has [.StateSwitch]

def SwitchInfo.isPoweredOn (i : SwitchInfo) : Bool := i.state = "1"

/-- Model of PowerInfo.GetVoltage: parsed raw value divided by 1000, the
parse error being discarded. -/
def PowerInfo.getVoltage (i : PowerInfo) : GoFloat :=
  goDiv (strconvParseFloat i.voltage).1 1000

/-- Model of PowerInfo.GetPower: parsed raw value divided by 1000, the
parse error being discarded. -/
def PowerInfo.getPower (i : PowerInfo) : GoFloat :=
  goDiv (strconvParseFloat i.power).1 1000

/-- Model of PowerInfo.GetEnergy: parsed raw value as-is, the parse error
being discarded. -/
def PowerInfo.getEnergy (i : PowerInfo) : GoFloat :=
  (strconvParseFloat i.energy).1

/-- Model of TemperatureInfo.GetCelsius: parsed raw tenths value divided
by 10, the parse error being discarded. -/
def TemperatureInfo.getCelsius (i : TemperatureInfo) : GoFloat :=
  goDiv (strconvParseFloat i.celsius).1 10

/-! ## Device collector (src/metrics.go, collectDeviceMetrics) -/

def prometheusBool (value : Bool) : ℚ := if value then 1 else 0

/-- Named observations one device contributes in a collection pass; a
`none` field means the corresponding gauge is not touched for this
device. -/
structure DeviceObservations where
  isConnected : ℚ
  temperature : Option GoFloat
  voltage : Option GoFloat
  power : Option GoFloat
  energy : Option GoFloat
  isPowered : Option ℚ
  deriving DecidableEq, Repr

/-- Model of DeviceMetrics.collectDeviceMetrics: is_connected is always
set from the Present field; temperature only when the device has the
temperature-sensor capability; voltage, power and energy only with the
power-sensor capability; is_powered only for switches. -/
def collectDeviceMetrics (device : Device) : DeviceObservations where
  isConnected := (device.present : ℚ)
  temperature :=
    if device.canMeasureTemperature then some device.temperature.getCelsius else none
  voltage :=
    if device.canMeasurePower then some device.power.getVoltage else none
  power :=
    if device.canMeasurePower then some device.power.getPower else none
  energy :=
    if device.canMeasurePower then some device.power.getEnergy else none
  isPowered :=
    if device.isSwitch then some (prometheusBool device.switch.isPoweredOn) else none

/-! ## Traffic snapshot and NetworkStats (src/fritzbox/network.go) -/

/-- Eight parallel series of traffic buckets, one per stream, each a list
of float64 bucket values as decoded from the JSON response; bucket values
are exact rationals in the model. -/
structure TrafficMonitoringData where
  downstreamInternet : List ℚ
  downStreamMedia : List ℚ
  downStreamGuest : List ℚ
  upstreamRealtime : List ℚ
  upstreamHighPriority : List ℚ
  upstreamDefaultPriority : List ℚ
  upstreamLowPriority : List ℚ
  upstreamGuest : List ℚ
  deriving DecidableEq, Repr

/-- Outcome of running the JSON decoder on the response body: either a
decode failure with the decoder message, or the decoded array. -/
inductive DecodeOutcome where
  | failure (msg : String)
  | ok (result : List TrafficMonitoringData)

/-- Model of fmt.Errorf: always produces a non-nil error (`some`), even
when the %w argument is a nil error. -/
def fmtErrorf (msg : String) : Option String := some msg

/-- Error message produced by network.go when the decoded array is empty:
fmt.Errorf("FRITZ!Box returned no monitoring data: %w", err) is called
with err = nil, so the %w verb prints a no-wrap marker but the returned
error is still non-nil. -/
def noMonitoringDataMsg : String := "FRITZ!Box returned no monitoring data: %!w(<nil>)"

def decodeFailMsgStart : String := "failed to decode response as JSON: "

/-- Model of the decode-and-validate tail of Client.NetworkStats in
src/fritzbox/network.go (the transport part having succeeded), returning
the Go (value, error) pair: a decoder failure is wrapped with
fmt.Errorf, an empty decoded array yields a nil snapshot and a non-nil
"no monitoring data" error, and otherwise the first array element is
returned with a nil error. -/
def networkStats (d : DecodeOutcome) : Option TrafficMonitoringData × Option String :=
  match d with
  | .failure msg => (none, fmtErrorf (decodeFailMsgStart ++ msg))
  | .ok [] => (none, fmtErrorf noMonitoringDataMsg)
  | .ok (first :: _) => (some first, none)

/-- Model of errors.Wrap of the pkg/errors package: wrapping a nil error
returns nil. -/
def errorsWrap (err : Option String) (msg : String) : Option String :=
  match err with
  | none => none
  | some e => some (msg ++ ": " ++ e)

/-- Model of the same tail of Client.NetworkStats in the superseded
revision src/unnamed/part_001, which used errors.Wrap of pkg/errors
instead of fmt.Errorf; in the empty-array branch the wrapped error is
nil, so the call returns a nil snapshot and a nil error. -/
def networkStatsPart001 (d : DecodeOutcome) : Option TrafficMonitoringData × Option String :=
  match d with
  | .failure msg => (none, some ("failed to decode response as JSON: " ++ msg))
  | .ok [] => (none, errorsWrap none "FRITZ!Box returned no monitoring data")
  | .ok (first :: _) => (some first, none)

/-! ## Network collector (src/metrics.go, NetworkMetrics.FetchFrom) -/

/-- The eight gauge values set by one successful network collection. -/
structure NetworkObservations where
  downstreamInternet : ℚ
  downStreamMedia : ℚ
  downStreamGuest : ℚ
  upstreamRealtime : ℚ
  upstreamHighPriority : ℚ
  upstreamDefaultPriority : ℚ
  upstreamLowPriority : ℚ
  upstreamGuest : ℚ
  deriving DecidableEq, Repr

/-- Model of the gauge-setting body of NetworkMetrics.FetchFrom: each of
the eight streams indexes element 0 of its series with no bounds check
and multiplies by 8.  Indexing an empty slice panics in Go; the panic is
modelled as `none`. -/
def networkFetchObservations (stats : TrafficMonitoringData) : Option NetworkObservations :=
  match stats.downstreamInternet.head?, stats.downStreamMedia.head?,
      stats.downStreamGuest.head?, stats.upstreamRealtime.head?,
      stats.upstreamHighPriority.head?, stats.upstreamDefaultPriority.head?,
      stats.upstreamLowPriority.head?, stats.upstreamGuest.head? with
  | some a, some b, some c, some d, some e, some f, some g, some h =>
      some ⟨a * 8, b * 8, c * 8, d * 8, e * 8, f * 8, g * 8, h * 8⟩
  | _, _, _, _, _, _, _, _ => none

/-! ## Configuration validation (src/config.go) -/

/-- Configuration fields checked by Config.Validate; the two monitoring
intervals are durations in nanoseconds. -/
structure Config where
  listenAddr : String
  deviceMonitoringInterval : ℤ
  networkMonitoringInterval : ℤ
  username : String
  password : String
  baseURL : String
  deriving DecidableEq, Repr

/-- Model of Config.Validate, mirroring the source condition by condition
(including the repeated Username test on the line that reports a missing
password): multierr.Append collects the messages, and the combined error
is nil exactly when no message was appended, so the result is the list of
collected messages. -/
def configValidate (c : Config) : List String :=
  (if c.listenAddr = "" then ["missing listen_addr"] else []) ++
  (if c.username = "" then ["missing fritzbox.username"] else []) ++
  (if c.username = "" then ["missing fritzbox.password"] else []) ++
  (if c.deviceMonitoringInterval = 0 then ["device_monitoring_interval cannot be zero"] else []) ++
  (if c.networkMonitoringInterval = 0 then ["network_monitoring_interval cannot be zero"] else []) ++
  (if c.baseURL = "" then ["FRITZ!Box base URL cannot be empty"] else [])

/-! ## Polling scheduler (src/server.go)

Time is abstracted to a numeric tick label.  The model below describes a
run in which the cancellation signal never fires and the consuming loop
always drains the tick channel, which is the most favourable schedule
for delivering ticks: every select in the goroutine takes its non-Done
branch and every channel send succeeds. -/

/-- Model of the goroutine body started by newTicker, in an uncancelled
run, as a function from the stream of ticks the interval ticker would
produce to the list of ticks forwarded into the output channel.  Each
loop iteration first receives the next interval tick and then sends it
on; the Go source returns from the goroutine immediately after the first
successful send (the `return` statement inside the send case), so no
recursion takes place after one tick is forwarded. -/
def tickerForward (intervalTicks : List ℕ) : List ℕ :=
  match intervalTicks with
  | [] => []
  | next :: _ => [next]

/-- Model of newTicker: the channel first carries the immediate startup
tick (the buffered send of time.Now), followed by whatever the goroutine
forwards from the interval ticker. -/
def newTickerDelivered (now : ℕ) (intervalTicks : List ℕ) : List ℕ :=
  now :: tickerForward intervalTicks

/-- Model of the polling loops deviceMetricsLoop and networkMetricsLoop:
while the context is uncancelled, every tick received from the ticker
channel triggers exactly one fetch, so in an uncancelled run the number
of polls equals the number of delivered ticks. -/
def metricsLoopPollCount (now : ℕ) (intervalTicks : List ℕ) : ℕ :=
  (newTickerDelivered now intervalTicks).length

/-! ## Session handshake (src/fritzbox/session.go) and data-call
preparation (src/fritzbox/client.go)

The transport is abstracted by an oracle: each login request either
fails (transport or XML decode error, leaving the cached session struct
unchanged) or succeeds and replaces the cached session with the decoded
response.  The BlockTime and Rights fields of the Go Session struct are
never read by the handshake logic and are omitted. -/

structure Session where
  challenge : String
  sid : String
  deriving DecidableEq, Repr

/-- The zeroSessionID constant: the session ID issued by the FRITZ!Box to
indicate an invalid session or no session. -/
def zeroSessionID : String := "0000000000000000"

/-- Outcome of one getXML login request: an error, or the Session decoded
from the response. -/
abbrev LoginResponse := Except Unit Session

/-- Result of Client.login: the error or success outcome, the cached
session struct after the call (getXML writes each successfully decoded
response into it), and the number of login requests that were issued. -/
structure LoginResult where
  result : Except String Unit
  session : Session
  steps : ℕ
  deriving Repr

def authChallengeFailedMsg : String :=
  "failed to solve authentication challenge, check username and password"

/-- Model of Client.login in src/fritzbox/session.go: request a
challenge presenting the cached SID; accept the response session if its
SID differs from the all-zero sentinel; otherwise submit the challenge
response and fail if the resulting SID is empty or still the sentinel. -/
def login (cached : Session) (resp1 resp2 : LoginResponse) : LoginResult :=
  match resp1 with
  | .error _ => ⟨.error "failed to get login challenge", cached, 1⟩
  | .ok s1 =>
    if s1.sid ≠ zeroSessionID then
      ⟨.ok (), s1, 1⟩
    else
      match resp2 with
      | .error _ => ⟨.error "failed to submit challenge response", s1, 2⟩
      | .ok s2 =>
        if s2.sid = "" ∨ s2.sid = zeroSessionID then
          ⟨.error authChallengeFailedMsg, s2, 2⟩
        else
          ⟨.ok (), s2, 2⟩

/-- Result of Client.prepareCommand: the prepared query arguments or an
error, together with the cached session after the call. -/
structure PrepareResult where
  result : Except String (List String)
  session : Session
  deriving Repr

/-- Model of Client.prepareCommand in src/fritzbox/client.go: run the
login handshake only when the cached SID is the empty string, then append
the sid and switchcmd query parameters, the sid parameter carrying the
cached SID at that point. -/
def prepareCommand (cached : Session) (resp1 resp2 : LoginResponse)
    (cmd : String) (args : List String) : PrepareResult :=
  if cached.sid = "" then
    let lr := login cached resp1 resp2
    match lr.result with
    | .error e => ⟨.error ("authentication error: " ++ e), lr.session⟩
    | .ok _ => ⟨.ok (args ++ ["sid", lr.session.sid, "switchcmd", cmd]), lr.session⟩
  else
    ⟨.ok (args ++ ["sid", cached.sid, "switchcmd", cmd]), cached⟩

/-! ## Challenge response hashing

The helper toUTF16andMD5 called by Session.solveChallenge is not among
the files under src (only its call site in src/fritzbox/session.go is),
so it is modelled from the spec below: UTF-16 little-endian encoding of
the input followed by MD5 and lowercase hex.  MD5 itself is implemented
in full (RFC 1321) over byte lists, with 32-bit words as naturals
reduced modulo 2^32. -/

def md5K : List ℕ := [
  0xd76aa478, 0xe8c7b756, 0x242070db, 0xc1bdceee, 0xf57c0faf, 0x4787c62a, 0xa8304613, 0xfd469501,
  0x698098d8, 0x8b44f7af, 0xffff5bb1, 0x895cd7be, 0x6b901122, 0xfd987193, 0xa679438e, 0x49b40821,
  0xf61e2562, 0xc040b340, 0x265e5a51, 0xe9b6c7aa, 0xd62f105d, 0x02441453, 0xd8a1e681, 0xe7d3fbc8,
  0x21e1cde6, 0xc33707d6, 0xf4d50d87, 0x455a14ed, 0xa9e3e905, 0xfcefa3f8, 0x676f02d9, 0x8d2a4c8a,
  0xfffa3942, 0x8771f681, 0x6d9d6122, 0xfde5380c, 0xa4beea44, 0x4bdecfa9, 0xf6bb4b60, 0xbebfbc70,
  0x289b7ec6, 0xeaa127fa, 0xd4ef3085, 0x04881d05, 0xd9d4d039, 0xe6db99e5, 0x1fa27cf8, 0xc4ac5665,
  0xf4292244, 0x432aff97, 0xab9423a7, 0xfc93a039, 0x655b59c3, 0x8f0ccc92, 0xffeff47d, 0x85845dd1,
  0x6fa87e4f, 0xfe2ce6e0, 0xa3014314, 0x4e0811a1, 0xf7537e82, 0xbd3af235, 0x2ad7d2bb, 0xeb86d391]

def md5S : List ℕ := [
  7, 12, 17, 22, 7, 12, 17, 22, 7, 12, 17, 22, 7, 12, 17, 22,
  5, 9, 14, 20, 5, 9, 14, 20, 5, 9, 14, 20, 5, 9, 14, 20,
  4, 11, 16, 23, 4, 11, 16, 23, 4, 11, 16, 23, 4, 11, 16, 23,
  6, 10, 15, 21, 6, 10, 15, 21, 6, 10, 15, 21, 6, 10, 15, 21]

def word32 (n : ℕ) : ℕ := n % 2 ^ 32

def complement32 (n : ℕ) : ℕ := n ^^^ 0xffffffff

def rotl32 (c n : ℕ) : ℕ := word32 ((n <<< c) ||| (n >>> (32 - c)))

/-- Little-endian byte decomposition of a natural number, w bytes wide. -/
def leBytes (w n : ℕ) : List ℕ :=
  (List.range w).map fun i => (n >>> (8 * i)) % 256

/-- MD5 padding: a 0x80 byte, zeros up to 56 modulo 64, then the bit
length as a 64-bit little-endian quantity. -/
def md5Pad (msg : List ℕ) : List ℕ :=
  msg ++ [0x80] ++ List.replicate ((119 - msg.length % 64) % 64) 0 ++
    leBytes 8 (word32 (8 * msg.length) + 2 ^ 32 * word32 ((8 * msg.length) >>> 32))

/-- Word g of block b of the padded message, decoded little-endian. -/
def md5Word (padded : List ℕ) (b g : ℕ) : ℕ :=
  padded.getD (64 * b + 4 * g) 0 + 256 * padded.getD (64 * b + 4 * g + 1) 0 +
    65536 * padded.getD (64 * b + 4 * g + 2) 0 + 16777216 * padded.getD (64 * b + 4 * g + 3) 0

/-- One MD5 round step: state (A, B, C, D) and the round index i. -/
def md5Step (padded : List ℕ) (b : ℕ) (st : ℕ × ℕ × ℕ × ℕ) (i : ℕ) : ℕ × ℕ × ℕ × ℕ :=
  let (a, bb, c, d) := st
  let (f, g) :=
    if i < 16 then ((bb &&& c) ||| (complement32 bb &&& d), i)
    else if i < 32 then ((d &&& bb) ||| (complement32 d &&& c), (5 * i + 1) % 16)
    else if i < 48 then (bb ^^^ c ^^^ d, (3 * i + 5) % 16)
    else (c ^^^ (bb ||| complement32 d), (7 * i) % 16)
  let f2 := word32 (f + a + md5K.getD i 0 + md5Word padded b g)
  (d, word32 (bb + rotl32 (md5S.getD i 0) f2), bb, c)

/-- Process one 64-byte block, updating the running digest state. -/
def md5Block (padded : List ℕ) (st : ℕ × ℕ × ℕ × ℕ) (b : ℕ) : ℕ × ℕ × ℕ × ℕ :=
  let (a0, b0, c0, d0) := st
  let (a, bb, c, d) := (List.range 64).foldl (md5Step padded b) (a0, b0, c0, d0)
  (word32 (a0 + a), word32 (b0 + bb), word32 (c0 + c), word32 (d0 + d))

/-- MD5 digest of a byte list, as the 16 digest bytes. -/
def md5Bytes (msg : List ℕ) : List ℕ :=
  let padded := md5Pad msg
  let (a, b, c, d) :=
    (List.range (padded.length / 64)).foldl (md5Block padded)
      (0x67452301, 0xefcdab89, 0x98badcfe, 0x10325476)
  leBytes 4 a ++ leBytes 4 b ++ leBytes 4 c ++ leBytes 4 d

def hexDigit (n : ℕ) : Char :=
  "0123456789abcdef".data.getD n '0'

/-- Lowercase hexadecimal rendering of a byte list. -/
def hexOfBytes (bytes : List ℕ) : String :=
  ⟨bytes.foldr (fun byte acc => hexDigit (byte / 16) :: hexDigit (byte % 16) :: acc) []⟩

/-- UTF-16 little-endian encoding of one unicode code point. -/
def utf16leChar (c : Char) : List ℕ :=
  let n := c.toNat
  if n < 0x10000 then [n % 256, n / 256 % 256]
  else
    let v := n - 0x10000
    let hi := 0xd800 + v / 0x400
    let lo := 0xdc00 + v % 0x400
    [hi % 256, hi / 256, lo % 256, lo / 256]

/-- UTF-16 little-endian encoding of a string, as bytes. -/
def utf16leBytes (s : String) : List ℕ :=
  s.data.foldr (fun c acc => utf16leChar c ++ acc) []

/-- Modelled from the spec: the helper toUTF16andMD5 is missing from the
files under src; per the spec it hashes the UTF-16LE encoding of its
input with MD5 and renders the digest as hex. -/
def toUTF16andMD5 (s : String) : String :=
  hexOfBytes (md5Bytes (utf16leBytes s))

/-- Model of Session.solveChallenge in src/fritzbox/session.go. -/
def Session.solveChallenge (s : Session) (password : String) : String :=
  s.challenge ++ "-" ++ toUTF16andMD5 (s.challenge ++ "-" ++ password)

/-! ## Theorems for the claims -/

/-- Claim C1: the claim states that for every n an n-th interval tick is
eventually delivered while the loop is uncancelled.  The code refutes
this: the newTicker goroutine returns immediately after forwarding the
first interval tick, so in an uncancelled run with however many interval
ticks available, at most two ticks (the immediate one and the first
interval one) are ever delivered and the polling loop performs at most
two polls; concretely, with interval ticks 1, 2, 3 pending, the second
interval tick is never delivered. -/
theorem newTicker_delivers_at_most_two_ticks :
    (∀ now intervalTicks, (newTickerDelivered now intervalTicks).length ≤ 2) ∧
    newTickerDelivered 0 [1, 2, 3] = [0, 1] ∧
    2 ∉ newTickerDelivered 0 [1, 2, 3] ∧
    metricsLoopPollCount 0 [1, 2, 3] = 2 := by
  refine ⟨fun now ticks => ?_, by decide, by decide, by decide⟩
  cases ticks <;> simp [newTickerDelivered, tickerForward]

/-- Claim C4: for every challenge and password, the computed challenge
response is the challenge, a dash, and the lowercase hex MD5 digest of
the UTF-16LE encoding of challenge-dash-password; on the concrete pair
abc123 and secret the digest evaluates to the fixed vector below
(cross-checked against a reference MD5 implementation). -/
theorem solveChallenge_matches_spec_formula :
    (∀ challenge sid password, Session.solveChallenge ⟨challenge, sid⟩ password =
      challenge ++ "-" ++ hexOfBytes (md5Bytes (utf16leBytes (challenge ++ "-" ++ password)))) ∧
    Session.solveChallenge ⟨"abc123", ""⟩ "secret" =
      "abc123-00ef4924fa626d8d664908df1dd79c75" := by
  exact ⟨fun c sid p => rfl, by decide⟩

/-- Claim C5: NetworkStats on a successfully parsed but empty JSON array
returns a nil snapshot and a non-nil error carrying the distinct no
monitoring data message, and this outcome differs from the error of any
JSON parse failure. -/
theorem networkStats_empty_array_distinct_error :
    networkStats (.ok []) = (none, some noMonitoringDataMsg) ∧
    (∀ msg, networkStats (.failure msg) = (none, some (decodeFailMsgStart ++ msg)) ∧
      noMonitoringDataMsg ≠ decodeFailMsgStart ++ msg) := by
  refine ⟨rfl, fun msg => ⟨rfl, fun h => ?_⟩⟩
  have h2 : noMonitoringDataMsg.data.head? = (decodeFailMsgStart ++ msg).data.head? :=
    congrArg (fun s => s.data.head?) h
  have h3 : (some 'F' : Option Char) = some 'f' := h2
  exact absurd h3 (by decide)

/-- Configuration whose only defect is an empty password, used to exhibit
the missing password check of Config.Validate. -/
def configOnlyMissingPassword : Config :=
  { listenAddr := "localhost:3000"
    deviceMonitoringInterval := 300000000000
    networkMonitoringInterval := 100000000000
    username := "prometheus"
    password := ""
    baseURL := "http://fritz.box" }

/-- Claim C6: the claim states that a configuration whose only defect is
an empty password is rejected with a message naming the password.  The
code refutes this: the line that appends the missing fritzbox.password
message tests Username a second time instead of Password, so Validate
collects no error at all for this configuration, and more generally the
password field never influences the validation outcome. -/
theorem configValidate_accepts_missing_password :
    configOnlyMissingPassword.password = "" ∧
    configValidate configOnlyMissingPassword = [] ∧
    (∀ c p, configValidate { c with password := p } = configValidate c) := by
  exact ⟨rfl, by decide, fun c p => rfl⟩

/-- Decoded snapshot in which every stream series is empty, as produced
for a JSON response whose outer array is non-empty but whose stream keys
are absent or empty arrays. -/
def allEmptySnapshot : TrafficMonitoringData := ⟨[], [], [], [], [], [], [], []⟩

/-- Claim C10: NetworkMetrics.FetchFrom indexes element 0 of each stream
with no bounds check, so it is panic-free exactly when all eight decoded
series are non-empty; and NetworkStats validates only that the outer
array is non-empty, so it happily returns a snapshot whose streams are
all empty, on which the collector then panics. -/
theorem networkFetch_panic_iff_some_empty_series :
    (∀ stats : TrafficMonitoringData,
      (networkFetchObservations stats).isSome ↔
        (stats.downstreamInternet ≠ [] ∧ stats.downStreamMedia ≠ [] ∧
         stats.downStreamGuest ≠ [] ∧ stats.upstreamRealtime ≠ [] ∧
         stats.upstreamHighPriority ≠ [] ∧ stats.upstreamDefaultPriority ≠ [] ∧
         stats.upstreamLowPriority ≠ [] ∧ stats.upstreamGuest ≠ [])) ∧
    networkStats (.ok [allEmptySnapshot]) = (some allEmptySnapshot, none) ∧
    networkFetchObservations allEmptySnapshot = none := by
  refine ⟨fun stats => ?_, rfl, rfl⟩
  obtain ⟨l1, l2, l3, l4, l5, l6, l7, l8⟩ := stats
  cases l1 <;> cases l2 <;> cases l3 <;> cases l4 <;> cases l5 <;> cases l6 <;>
    cases l7 <;> cases l8 <;> simp [networkFetchObservations]

/-- The eight gauge values that a snapshot should produce according to
the spec formula: the first bucket of each series times eight. -/
def expectedNetworkObservations (stats : TrafficMonitoringData) : NetworkObservations :=
  ⟨stats.downstreamInternet.headD 0 * 8, stats.downStreamMedia.headD 0 * 8,
   stats.downStreamGuest.headD 0 * 8, stats.upstreamRealtime.headD 0 * 8,
   stats.upstreamHighPriority.headD 0 * 8, stats.upstreamDefaultPriority.headD 0 * 8,
   stats.upstreamLowPriority.headD 0 * 8, stats.upstreamGuest.headD 0 * 8⟩

/-- Claim C8: every successful network collection sets all eight stream
observations to the first bucket of the respective series multiplied by
8, and no bucket beyond index 0 influences the outcome (two snapshots
agreeing on the first bucket of every series collect identically). -/
theorem networkFetch_scales_first_bucket_by_eight :
    (∀ stats obs, networkFetchObservations stats = some obs →
      obs = expectedNetworkObservations stats) ∧
    (∀ s t : TrafficMonitoringData,
      s.downstreamInternet.head? = t.downstreamInternet.head? →
      s.downStreamMedia.head? = t.downStreamMedia.head? →
      s.downStreamGuest.head? = t.downStreamGuest.head? →
      s.upstreamRealtime.head? = t.upstreamRealtime.head? →
      s.upstreamHighPriority.head? = t.upstreamHighPriority.head? →
      s.upstreamDefaultPriority.head? = t.upstreamDefaultPriority.head? →
      s.upstreamLowPriority.head? = t.upstreamLowPriority.head? →
      s.upstreamGuest.head? = t.upstreamGuest.head? →
      networkFetchObservations s = networkFetchObservations t) := by
  constructor
  · intro stats obs h
    obtain ⟨l1, l2, l3, l4, l5, l6, l7, l8⟩ := stats
    cases l1 <;> cases l2 <;> cases l3 <;> cases l4 <;> cases l5 <;> cases l6 <;>
      cases l7 <;> cases l8 <;>
      simp_all [networkFetchObservations, expectedNetworkObservations]
  · intro s t h1 h2 h3 h4 h5 h6 h7 h8
    simp only [networkFetchObservations, h1, h2, h3, h4, h5, h6, h7, h8]

/-- Snapshot whose series all have 125000.0 bytes per second in the most
recent bucket, together with stale history in some series. -/
def snapshot125k : TrafficMonitoringData :=
  ⟨[125000, 7], [125000], [125000, 1, 2], [125000], [125000], [125000], [125000], [125000]⟩

/-- Witness for claim C8: on the concrete snapshot with first buckets
125000.0 the collector sets every observation to 1000000.0, and the
buckets beyond index 0 do not matter. -/
theorem networkFetch_scales_first_bucket_by_eight_witness :
    (⟨1000000, 1000000, 1000000, 1000000, 1000000, 1000000, 1000000, 1000000⟩ :
      NetworkObservations) = expectedNetworkObservations snapshot125k :=
  networkFetch_scales_first_bucket_by_eight.1 snapshot125k _
    (by simp [networkFetchObservations, snapshot125k]; norm_num)

/-- Claim C7: a device contributes a temperature observation exactly when
bit 8 (the temperature-sensor bit) of its parsed capability bitmask is
set, in which case the observation is the raw tenths-of-a-degree string
parsed as a number and divided by 10; a bitmask string that does not
parse as an integer yields no temperature observation. -/
theorem collectDeviceMetrics_temperature_iff_bit8 :
    (∀ d : Device, (collectDeviceMetrics d).temperature =
      if hasMask d.capabilitiesBitmap (1 <<< 8)
      then some (goDiv (strconvParseFloat d.temperature.celsius).1 10)
      else none) ∧
    (∀ d : Device, strconvParseInt64 d.capabilitiesBitmap = none →
      (collectDeviceMetrics d).temperature = none) := by
  have hbit : ∀ d : Device, d.canMeasureTemperature = hasMask d.capabilitiesBitmap (1 <<< 8) := by
    intro d
    simp [Device.canMeasureTemperature, Device.has, capabilityIndex]
  constructor
  · intro d
    rw [collectDeviceMetrics, hbit]
    rfl
  · intro d hparse
    rw [collectDeviceMetrics]
    simp only [hbit, hasMask, hparse, if_neg]
    simp [hasMask, hparse]

/-- Device with an unparsable capability bitmask, for the C7 witness. -/
def deviceBadBitmask : Device :=
  { name := "plug", present := 1, capabilitiesBitmap := "not-a-number"
    switch := ⟨"1", "manual", "0", "0"⟩
    power := ⟨"2770", "129", "228916"⟩
    temperature := ⟨"5", "0"⟩ }

/-- Witness for claim C7: a device whose bitmask string does not parse
contributes no temperature observation, and on a device with bit 8 set
(bitmask 320 = bits 6 and 8) the observation is the parsed tenths value
divided by 10. -/
theorem collectDeviceMetrics_temperature_iff_bit8_witness :
    (collectDeviceMetrics deviceBadBitmask).temperature = none ∧
    (collectDeviceMetrics { deviceBadBitmask with capabilitiesBitmap := "320" }).temperature =
      some (goDiv (strconvParseFloat "5").1 10) := by
  constructor
  · exact collectDeviceMetrics_temperature_iff_bit8.2 deviceBadBitmask (by decide)
  · rw [collectDeviceMetrics_temperature_iff_bit8.1
      { deviceBadBitmask with capabilitiesBitmap := "320" }]
    rw [if_pos (by decide)]
    rfl

/-- Claim C3: whenever the first handshake step yields the all-zero
sentinel, the session is not accepted and the challenge-response
submission step is always performed (the call issues exactly two login
requests, and never more than two in any case, so there is no retry
within the call); if the second step yields an empty or still-zero SID,
the call fails with the authentication error message telling the user to
check username and password. -/
theorem login_zero_sentinel_triggers_submission :
    (∀ cached s1 resp2, s1.sid = zeroSessionID →
      (login cached (.ok s1) resp2).steps = 2 ∧
      (∀ s2, resp2 = .ok s2 → s2.sid = "" ∨ s2.sid = zeroSessionID →
        (login cached (.ok s1) resp2).result = .error authChallengeFailedMsg)) ∧
    (∀ cached resp1 resp2, (login cached resp1 resp2).steps ≤ 2) := by
  constructor
  · intro cached s1 resp2 hzero
    constructor
    · cases resp2 with
      | error e => simp [login, hzero]
      | ok s2 =>
        by_cases h2 : s2.sid = "" ∨ s2.sid = zeroSessionID <;> simp [login, hzero, h2]
    · rintro s2 rfl hbad
      simp [login, hzero, hbad]
  · intro cached resp1 resp2
    cases resp1 with
    | error e => simp [login]
    | ok s1 =>
      by_cases h : s1.sid = zeroSessionID
      · cases resp2 with
        | error e => simp [login, h]
        | ok s2 =>
          by_cases h2 : s2.sid = "" ∨ s2.sid = zeroSessionID <;> simp [login, h, h2]
      · simp [login, h]

/-- Witness for claim C3: with a zero-sentinel first step and a second
step that still returns the sentinel, the login issues two requests and
fails with the check-username-and-password error. -/
theorem login_zero_sentinel_triggers_submission_witness :
    (login ⟨"", ""⟩ (.ok ⟨"ch1", zeroSessionID⟩) (.ok ⟨"ch1", zeroSessionID⟩)).steps = 2 ∧
    (login ⟨"", ""⟩ (.ok ⟨"ch1", zeroSessionID⟩) (.ok ⟨"ch1", zeroSessionID⟩)).result =
      .error authChallengeFailedMsg := by
  obtain ⟨h1, h2⟩ :=
    login_zero_sentinel_triggers_submission.1 ⟨"", ""⟩ ⟨"ch1", zeroSessionID⟩
      (.ok ⟨"ch1", zeroSessionID⟩) rfl
  exact ⟨h1, h2 ⟨"ch1", zeroSessionID⟩ rfl (Or.inr rfl)⟩

/-- Claim C2 counterexample: the claim states that the sid attached to a
data call is never empty and never the all-zero sentinel.  Refutation on
a concrete reachable trace: the first data call starts with the empty
cached SID, step one of the handshake returns the zero sentinel, and the
challenge submission fails with a transport error, so the call errors
while the zero sentinel stays cached; the next data call then sees a
non-empty cached SID, skips the handshake, and attaches the all-zero
sentinel as its sid query parameter. -/
theorem prepareCommand_attaches_zero_sid_after_failed_handshake :
    (prepareCommand ⟨"", ""⟩ (.ok ⟨"ch1", zeroSessionID⟩) (.error ())
        "getdevicelistinfos" []).result =
      .error "authentication error: failed to submit challenge response" ∧
    (prepareCommand ⟨"", ""⟩ (.ok ⟨"ch1", zeroSessionID⟩) (.error ())
        "getdevicelistinfos" []).session = ⟨"ch1", zeroSessionID⟩ ∧
    (prepareCommand ⟨"ch1", zeroSessionID⟩ (.error ()) (.error ())
        "getdevicelistinfos" []).result =
      .ok ["sid", zeroSessionID, "switchcmd", "getdevicelistinfos"] := by
  refine ⟨rfl, rfl, ?_⟩
  rw [prepareCommand, if_neg (by decide)]
  rfl

/-- Claim C2 as amended: for a data call that starts with the empty
cached SID (in particular the first call ever), and assuming every
successfully decoded login response carries a non-empty SID field, the
sid parameter the call attaches is neither empty nor the all-zero
sentinel; when the cached SID is non-empty no handshake runs and the
cached value is attached as-is, which is how a zero sentinel left behind
by a failed challenge submission reaches a request. -/
theorem prepareCommand_fresh_login_attaches_valid_sid :
    ∀ (cached : Session) (resp1 resp2 : LoginResponse) (cmd : String) (args out : List String),
      cached.sid = "" →
      (∀ s, resp1 = .ok s → s.sid ≠ "") →
      (∀ s, resp2 = .ok s → s.sid ≠ "") →
      (prepareCommand cached resp1 resp2 cmd args).result = .ok out →
      out = args ++ ["sid", (prepareCommand cached resp1 resp2 cmd args).session.sid,
        "switchcmd", cmd] ∧
      (prepareCommand cached resp1 resp2 cmd args).session.sid ≠ "" ∧
      (prepareCommand cached resp1 resp2 cmd args).session.sid ≠ zeroSessionID := by
  intro cached resp1 resp2 cmd args out hempty h1 h2 hok
  have hsid : (login cached resp1 resp2).result = .ok () →
      (login cached resp1 resp2).session.sid ≠ "" ∧
      (login cached resp1 resp2).session.sid ≠ zeroSessionID := by
    intro hlok
    cases resp1 with
    | error e => simp [login] at hlok
    | ok s1 =>
      by_cases hz : s1.sid = zeroSessionID
      · cases resp2 with
        | error e => simp [login, hz] at hlok
        | ok s2 =>
          by_cases hbad : s2.sid = "" ∨ s2.sid = zeroSessionID
          · simp [login, hz, hbad] at hlok
          · push_neg at hbad
            refine ⟨?_, ?_⟩ <;> simp [login, hz, hbad.1, hbad.2]
      · exact ⟨by simp [login, hz]; exact h1 s1 rfl, by simp [login, hz]⟩
  rw [prepareCommand, if_pos hempty] at hok ⊢
  cases hres : (login cached resp1 resp2).result with
  | error e =>
    simp only [hres] at hok
    simp at hok
  | ok u =>
    simp only [hres] at hok ⊢
    simp only [Except.ok.injEq] at hok
    have h := hsid (by rw [hres])
    exact ⟨hok.symm, h.1, h.2⟩

/-- Witness for the amended claim C2: a first data call from the empty
cached SID, whose handshake succeeds with a proper session ID, attaches a
sid that is neither empty nor the all-zero sentinel. -/
theorem prepareCommand_fresh_login_attaches_valid_sid_witness :
    (prepareCommand ⟨"", ""⟩ (.ok ⟨"ch2", zeroSessionID⟩) (.ok ⟨"ch2", "123abc456def7890"⟩)
        "getdevicelistinfos" []).session.sid ≠ "" ∧
    (prepareCommand ⟨"", ""⟩ (.ok ⟨"ch2", zeroSessionID⟩) (.ok ⟨"ch2", "123abc456def7890"⟩)
        "getdevicelistinfos" []).session.sid ≠ zeroSessionID := by
  have h := prepareCommand_fresh_login_attaches_valid_sid ⟨"", ""⟩
    (.ok ⟨"ch2", zeroSessionID⟩) (.ok ⟨"ch2", "123abc456def7890"⟩) "getdevicelistinfos" []
    ["sid", "123abc456def7890", "switchcmd", "getdevicelistinfos"] rfl
    (by intro s hs; simp only [Except.ok.injEq] at hs; subst hs; decide)
    (by intro s hs; simp only [Except.ok.injEq] at hs; subst hs; decide)
    (by rfl)
  exact ⟨h.2.1, h.2.2⟩

/-- Helper: whenever the modelled strconv.ParseFloat reports a syntax
error, the value half of its result is zero (Go returns f = 0 with
ErrSyntax). -/
theorem strconvParseFloat_cases (s : String) :
    strconvParseFloat s = (.finite 0, some .malformed) ∨
    (∃ b, strconvParseFloat s = (.infinity b, some .outOfRange)) ∨
    (∃ q, strconvParseFloat s = (.finite q, none)) := by
  unfold strconvParseFloat
  dsimp only
  repeat' split
  all_goals
    first
      | exact Or.inl rfl
      | exact Or.inr (Or.inl ⟨_, rfl⟩)
      | exact Or.inr (Or.inr ⟨_, rfl⟩)

theorem strconvParseFloat_malformed_value (s : String) :
    (strconvParseFloat s).2 = some GoNumErr.malformed → (strconvParseFloat s).1 = .finite 0 := by
  intro h
  rcases strconvParseFloat_cases s with hc | ⟨b, hc⟩ | ⟨q, hc⟩ <;> rw [hc] at h ⊢ <;> simp_all

/-- Claim C9 counterexample: the claim states that every raw string that
fails to parse yields exactly zero from the accessors, including
out-of-range numeric strings.  Refutation: the string 1e999 fails to
parse (range error), yet Go ParseFloat hands back ±Inf alongside the
error, the accessors discard only the error, and infinity divided by the
scale factor is still infinity, not zero. -/
theorem accessors_out_of_range_not_zero :
    (strconvParseFloat "1e999").2 = some .outOfRange ∧
    PowerInfo.getEnergy ⟨"", "1e999", ""⟩ = .infinity false ∧
    PowerInfo.getVoltage ⟨"", "", "1e999"⟩ = .infinity false ∧
    PowerInfo.getPower ⟨"1e999", "", ""⟩ = .infinity false ∧
    GoFloat.infinity false ≠ GoFloat.finite 0 := by
  refine ⟨by decide, by decide, ?_, ?_, by decide⟩
  · show goDiv (strconvParseFloat "1e999").1 1000 = .infinity false
    rw [show (strconvParseFloat "1e999").1 = .infinity false from by decide]
    rfl
  · show goDiv (strconvParseFloat "1e999").1 1000 = .infinity false
    rw [show (strconvParseFloat "1e999").1 = .infinity false from by decide]
    rfl

/-- Claim C9 as amended: for every raw power, voltage or energy string
that fails to parse with a syntax error, the accessors return exactly
zero; a syntactically valid but out-of-range string instead degrades to
the scaled infinity that ParseFloat returned along with its discarded
range error. -/
theorem accessors_zero_on_malformed :
    ∀ p : PowerInfo,
      ((strconvParseFloat p.voltage).2 = some .malformed → p.getVoltage = .finite 0) ∧
      ((strconvParseFloat p.power).2 = some .malformed → p.getPower = .finite 0) ∧
      ((strconvParseFloat p.energy).2 = some .malformed → p.getEnergy = .finite 0) := by
  intro p
  refine ⟨fun h => ?_, fun h => ?_, fun h => ?_⟩
  · rw [PowerInfo.getVoltage, strconvParseFloat_malformed_value _ h]
    simp [goDiv]
  · rw [PowerInfo.getPower, strconvParseFloat_malformed_value _ h]
    simp [goDiv]
  · rw [PowerInfo.getEnergy, strconvParseFloat_malformed_value _ h]

/-- Witness for the amended claim C9: all three accessors return zero on
a record whose raw strings are all syntactically malformed. -/
theorem accessors_zero_on_malformed_witness :
    (PowerInfo.getVoltage ⟨"watts", "", "volts"⟩ = .finite 0) ∧
    (PowerInfo.getPower ⟨"watts", "", "volts"⟩ = .finite 0) ∧
    (PowerInfo.getEnergy ⟨"watts", "", "volts"⟩ = .finite 0) := by
  obtain ⟨h1, h2, h3⟩ := accessors_zero_on_malformed ⟨"watts", "", "volts"⟩
  exact ⟨h1 (by decide), h2 (by decide), h3 (by decide)⟩

end FritzMon
